import Mathlib

/-!
Verification development for the `auto_3s_mute` silence-detection and
mute-state reconciliation core (the Chrome-extension content-script
variant of `AudioLevelMonitor`, which carries the cooldown logic).

Modelling conventions:
* JavaScript numbers (volume samples, durations in seconds, timestamps
  in milliseconds from `Date.now()`) are modelled as exact rationals
  `ℚ`.  All threshold comparisons in the source are order comparisons,
  and at the concrete configuration of interest (tick `0.1`, duration
  `3`) the exact-rational and IEEE-double runs make the same decisions
  (thirty accumulations of the double nearest `0.1` land above `3`),
  so no claim's verdict depends on rounding.
* The DOM mute button is modelled by the attributes the code reads:
  its optional `data-is-muted` attribute, its `aria-label`, and its
  class list.  A tick's observation of the button is an
  `Option ButtonInfo`, `none` when `findMuteButton` returns `null`.
* `simulateMuteKey` / `chrome.runtime.sendMessage` side effects are
  modelled as the emitted `MuteAction`; a tick returns the successor
  state together with `Option MuteAction` (at most one action per tick,
  as in the source).
-/

/-- JavaScript `String.prototype.includes` on explicit character lists:
`hasSub s pat` is true when `pat` occurs contiguously in `s`. -/
def hasSub : List Char → List Char → Bool
  | _, [] => true
  | [], _ :: _ => false
  | c :: rest, p :: ps =>
    List.isPrefixOf (p :: ps) (c :: rest) || hasSub rest (p :: ps)

/-- `jsIncludes s pat` models `s.includes(pat)` on JavaScript strings. -/
def jsIncludes (s pat : String) : Bool :=
  hasSub s.data pat.data

/-- The attributes of the Google Meet microphone button that
`isButtonMuted` inspects. -/
structure ButtonInfo where
  dataIsMuted : Option String
  ariaLabel : String
  classList : List String
deriving DecidableEq

/-- The action a tick dispatches (keyboard-shortcut toggle plus
background-script message), `AUTO_MUTED` or `AUTO_UNMUTED`. -/
inductive MuteAction where
  | mute
  | unmute
deriving DecidableEq

/-- Mutable per-monitor fields of `AudioLevelMonitor` that the
silence/mute core reads and writes.  Times are in milliseconds
(`Date.now()`), durations in seconds. -/
structure MonitorState where
  silenceDuration : ℚ
  isMuted : Bool
  originalMuteState : Bool
  lastUnmuteTime : ℚ
  lastMuteState : Bool
deriving DecidableEq

/-- Configuration fields (`volumeThreshold`, `maxSilenceDuration`,
`unmuteCooldown`), read-only during a tick. -/
structure Config where
  volumeThreshold : ℚ
  maxSilenceDuration : ℚ
  unmuteCooldown : ℚ
deriving DecidableEq

/-- `AudioLevelMonitor.isButtonMuted`: probe the `data-is-muted`
attribute first; otherwise match `aria-label` substrings (Japanese and
English patterns, in source order); otherwise look for a `mute`-like
class; otherwise default to not muted. -/
def isButtonMuted (b : ButtonInfo) : Bool :=
  match b.dataIsMuted with
  | some v => v == "true"
  | none =>
    if jsIncludes b.ariaLabel "マイクをオフ" || jsIncludes b.ariaLabel "Mic off" then
      false
    else if jsIncludes b.ariaLabel "マイクをオン" || jsIncludes b.ariaLabel "Mic on" then
      true
    else if jsIncludes b.ariaLabel "ミュート" || jsIncludes b.ariaLabel "Mute" then
      true
    else if jsIncludes b.ariaLabel "ミュート解除" || jsIncludes b.ariaLabel "Unmute" then
      false
    else if b.classList.any (fun cls => jsIncludes cls "muted" || jsIncludes cls "mute") then
      true
    else
      false

/-- `AudioLevelMonitor.checkMuteState`: when the mute button is found,
read its state; on a believed-muted → observed-unmuted flip stamp
`lastUnmuteTime` with the current time; sync `isMuted` (and
`originalMuteState`) to the observation; then repeat the flip detection
against `lastMuteState` and sync it too.  When the button is not found
(`none`) nothing changes. -/
def checkMuteState (button : Option ButtonInfo) (now : ℚ)
    (st : MonitorState) : MonitorState :=
  match button with
  | none => st
  | some b =>
    let isActuallyMuted := isButtonMuted b
    let st1 :=
      if isActuallyMuted ≠ st.isMuted then
        let lu := if isActuallyMuted = false ∧ st.isMuted = true then now
                  else st.lastUnmuteTime
        { st with lastUnmuteTime := lu, isMuted := isActuallyMuted,
                  originalMuteState := isActuallyMuted }
      else st
    if isActuallyMuted ≠ st1.lastMuteState then
      let lu := if isActuallyMuted = false ∧ st1.lastMuteState = true then now
                else st1.lastUnmuteTime
      { st1 with lastUnmuteTime := lu, lastMuteState := isActuallyMuted }
    else st1

/-- `AudioLevelMonitor.autoMute` (keyboard-shortcut variant): if the
believed state is unmuted, simulate the mute key, set
`originalMuteState`, set `isMuted := true`, and notify. -/
def autoMute (st : MonitorState) : MonitorState × Option MuteAction :=
  if st.isMuted = false then
    ({ st with originalMuteState := st.isMuted, isMuted := true },
     some MuteAction.mute)
  else
    (st, none)

/-- `AudioLevelMonitor.autoUnmute`: if the believed state is muted,
simulate the mute key, set `isMuted := false`, record
`lastUnmuteTime := now`, and notify. -/
def autoUnmute (now : ℚ) (st : MonitorState) :
    MonitorState × Option MuteAction :=
  if st.isMuted = true then
    ({ st with isMuted := false, lastUnmuteTime := now },
     some MuteAction.unmute)
  else
    (st, none)

/-- One iteration of `AudioLevelMonitor.monitorAudioLevel` (the body
executed every 100 ms while monitoring is active): reconcile the mute
state, then on a sub-threshold sample accumulate `0.1` s of silence and
mute when the duration is reached outside the cooldown window; on a
sample at or above the threshold reset the silence timer and unmute if
believed muted. -/
def monitorAudioLevel (cfg : Config) (sample : ℚ)
    (button : Option ButtonInfo) (now : ℚ) (st : MonitorState) :
    MonitorState × Option MuteAction :=
  let st1 := checkMuteState button now st
  if sample < cfg.volumeThreshold then
    let st2 := { st1 with silenceDuration := st1.silenceDuration + 1/10 }
    let timeSinceLastUnmute := (now - st2.lastUnmuteTime) / 1000
    let isInCooldown := timeSinceLastUnmute < cfg.unmuteCooldown
    if cfg.maxSilenceDuration ≤ st2.silenceDuration ∧ st2.isMuted = false ∧
        ¬ isInCooldown then
      autoMute st2
    else
      (st2, none)
  else
    let st2 := { st1 with silenceDuration := 0 }
    if st2.isMuted = true then
      autoUnmute now st2
    else
      (st2, none)

/-- Iterate `monitorAudioLevel` over a list of per-tick inputs
`(sample, button, now)`, collecting the dispatched actions in tick
order. -/
def runTicks (cfg : Config) (st : MonitorState) :
    List (ℚ × Option ButtonInfo × ℚ) → MonitorState × List (Option MuteAction)
  | [] => (st, [])
  | (sample, button, now) :: rest =>
    let step := monitorAudioLevel cfg sample button now st
    let tail := runTicks cfg step.1 rest
    (tail.1, step.2 :: tail.2)

/-- Default configuration of the content script: threshold `0.01`,
silence duration `3` s, cooldown `2` s. -/
def defaultConfig : Config :=
  { volumeThreshold := 1/100, maxSilenceDuration := 3, unmuteCooldown := 2 }

/-- A button whose `data-is-muted` attribute reports the unmuted
state. -/
def unmutedButton : ButtonInfo :=
  { dataIsMuted := some "false", ariaLabel := "マイクをオフにする", classList := [] }

/-- A button whose `data-is-muted` attribute reports the muted
state. -/
def mutedButton : ButtonInfo :=
  { dataIsMuted := some "true", ariaLabel := "マイクをオンにする", classList := [] }

/-- Initial monitor state: unmuted, no accumulated silence, epoch
`lastUnmuteTime`. -/
def initialState : MonitorState :=
  { silenceDuration := 0, isMuted := false, originalMuteState := false,
    lastUnmuteTime := 0, lastMuteState := false }

/-- `constInputs sample button t0 dt n`: `n` consecutive ticks with the
same sample and button observation, starting at time `t0` and spaced
`dt` ms apart. -/
def constInputs (sample : ℚ) (button : Option ButtonInfo) (t0 dt : ℚ) :
    ℕ → List (ℚ × Option ButtonInfo × ℚ)
  | 0 => []
  | n + 1 => (sample, button, t0) :: constInputs sample button (t0 + dt) dt n

/-- Input trace of end-to-end scenario A: 30 consecutive sub-threshold
samples (`0.005`), the button observed unmuted, ticks 100 ms apart
starting well clear of any cooldown. -/
def scenarioAInputs : List (ℚ × Option ButtonInfo × ℚ) :=
  constInputs (1/200) (some unmutedButton) 100000 100 30

/-- The `aria-label` substring patterns probed by `isButtonMuted`, in
source order. -/
def labelPatterns : List String :=
  ["マイクをオフ", "Mic off", "マイクをオン", "Mic on",
   "ミュート", "Mute", "ミュート解除", "Unmute"]

/-! ### Basic facts about the embedded operations -/

lemma checkMuteState_none (now : ℚ) (st : MonitorState) :
    checkMuteState none now st = st := rfl

lemma checkMuteState_silenceDuration (button : Option ButtonInfo) (now : ℚ)
    (st : MonitorState) :
    (checkMuteState button now st).silenceDuration = st.silenceDuration := by
  cases button with
  | none => rfl
  | some b =>
    simp only [checkMuteState]
    split_ifs <;> rfl

lemma checkMuteState_isMuted (b : ButtonInfo) (now : ℚ) (st : MonitorState) :
    (checkMuteState (some b) now st).isMuted = isButtonMuted b := by
  simp only [checkMuteState]
  split_ifs with h1 h2 h3 h4 <;> simp_all

lemma checkMuteState_lastUnmuteTime_ge (button : Option ButtonInfo) (now : ℚ)
    (st : MonitorState) (h : st.lastUnmuteTime ≤ now) :
    st.lastUnmuteTime ≤ (checkMuteState button now st).lastUnmuteTime := by
  cases button with
  | none => exact le_refl _
  | some b =>
    simp only [checkMuteState]
    split_ifs <;> simp_all

lemma autoMute_silenceDuration (st : MonitorState) :
    (autoMute st).1.silenceDuration = st.silenceDuration := by
  simp only [autoMute]; split_ifs <;> rfl

lemma autoUnmute_silenceDuration (now : ℚ) (st : MonitorState) :
    (autoUnmute now st).1.silenceDuration = st.silenceDuration := by
  simp only [autoUnmute]; split_ifs <;> rfl

lemma monitorAudioLevel_silenceDuration (cfg : Config) (sample : ℚ)
    (button : Option ButtonInfo) (now : ℚ) (st : MonitorState) :
    (monitorAudioLevel cfg sample button now st).1.silenceDuration =
      if sample < cfg.volumeThreshold then st.silenceDuration + 1/10 else 0 := by
  simp only [monitorAudioLevel]
  split_ifs with hs hcond <;>
    simp [autoMute_silenceDuration, autoUnmute_silenceDuration,
      checkMuteState_silenceDuration]

lemma monitorAudioLevel_mute_iff (cfg : Config) (sample : ℚ)
    (button : Option ButtonInfo) (now : ℚ) (st : MonitorState) :
    (monitorAudioLevel cfg sample button now st).2 = some MuteAction.mute ↔
      (sample < cfg.volumeThreshold ∧
       cfg.maxSilenceDuration ≤ (checkMuteState button now st).silenceDuration + 1/10 ∧
       (checkMuteState button now st).isMuted = false ∧
       cfg.unmuteCooldown ≤ (now - (checkMuteState button now st).lastUnmuteTime) / 1000) := by
  simp only [monitorAudioLevel, autoMute, autoUnmute]
  split_ifs with hs hcond hm hm' <;> simp_all

lemma monitorAudioLevel_unmute_iff (cfg : Config) (sample : ℚ)
    (button : Option ButtonInfo) (now : ℚ) (st : MonitorState) :
    (monitorAudioLevel cfg sample button now st).2 = some MuteAction.unmute ↔
      (cfg.volumeThreshold ≤ sample ∧
       (checkMuteState button now st).isMuted = true) := by
  simp only [monitorAudioLevel, autoMute, autoUnmute]
  split_ifs with hs hcond hm hm' <;> simp_all [le_of_lt, not_lt]

/-! ### Concrete states used by witnesses -/

/-- A state with 2.9 s of accumulated silence, believed unmuted, no
recent unmute. -/
def stSilent29 : MonitorState :=
  { silenceDuration := 29/10, isMuted := false, originalMuteState := false,
    lastUnmuteTime := 0, lastMuteState := false }

/-- A believed-muted state. -/
def stMuted : MonitorState :=
  { silenceDuration := 0, isMuted := true, originalMuteState := true,
    lastUnmuteTime := 0, lastMuteState := true }

/-- A state with 2.9 s of silence whose last unmute was stamped at
`t = 100000` ms. -/
def stRecentUnmute : MonitorState :=
  { silenceDuration := 29/10, isMuted := false, originalMuteState := false,
    lastUnmuteTime := 100000, lastMuteState := false }

/-! ### Claims -/

/-- C1: On every tick (for a positive configured silence duration), an
automatic mute is dispatched exactly when the accumulated silence
duration has reached the configured silence duration, the believed mute
state after reconciliation is false, and the tick is not within the
cooldown window; if any condition fails no mute is dispatched. -/
theorem mute_dispatched_iff_conditions (cfg : Config) (sample : ℚ)
    (button : Option ButtonInfo) (now : ℚ) (st : MonitorState)
    (hdur : 0 < cfg.maxSilenceDuration) :
    (monitorAudioLevel cfg sample button now st).2 = some MuteAction.mute ↔
      (cfg.maxSilenceDuration ≤
          (monitorAudioLevel cfg sample button now st).1.silenceDuration ∧
       (checkMuteState button now st).isMuted = false ∧
       cfg.unmuteCooldown ≤
          (now - (checkMuteState button now st).lastUnmuteTime) / 1000) := by
  rw [monitorAudioLevel_mute_iff, monitorAudioLevel_silenceDuration,
    checkMuteState_silenceDuration]
  by_cases hs : sample < cfg.volumeThreshold
  · simp [hs]
  · simp [hs, not_le.mpr hdur]

/-- Witness for C1 at the default configuration and a concrete
silent tick. -/
theorem mute_dispatched_iff_conditions_witness :
    (monitorAudioLevel defaultConfig (1/200) (some unmutedButton) 100000
        stSilent29).2 = some MuteAction.mute ↔
      (defaultConfig.maxSilenceDuration ≤
          (monitorAudioLevel defaultConfig (1/200) (some unmutedButton) 100000
            stSilent29).1.silenceDuration ∧
       (checkMuteState (some unmutedButton) 100000 stSilent29).isMuted = false ∧
       defaultConfig.unmuteCooldown ≤
          (100000 - (checkMuteState (some unmutedButton) 100000
            stSilent29).lastUnmuteTime) / 1000) :=
  mute_dispatched_iff_conditions defaultConfig (1/200) (some unmutedButton)
    100000 stSilent29 (by norm_num [defaultConfig])

/-- C2: each tick adds exactly `0.1` s to the silence accumulator on a
strictly sub-threshold sample, resets it to exactly `0` on a sample at
or above the threshold (equality counts as speech), and never makes it
negative. -/
theorem silence_accumulator_update (cfg : Config) (sample : ℚ)
    (button : Option ButtonInfo) (now : ℚ) (st : MonitorState)
    (h0 : 0 ≤ st.silenceDuration) :
    (sample < cfg.volumeThreshold →
      (monitorAudioLevel cfg sample button now st).1.silenceDuration =
        st.silenceDuration + 1/10) ∧
    (cfg.volumeThreshold ≤ sample →
      (monitorAudioLevel cfg sample button now st).1.silenceDuration = 0) ∧
    0 ≤ (monitorAudioLevel cfg sample button now st).1.silenceDuration := by
  rw [monitorAudioLevel_silenceDuration]
  refine ⟨fun hs => by simp [hs], fun hs => by simp [not_lt.mpr hs], ?_⟩
  split_ifs with hs
  · linarith
  · exact le_refl 0

/-- Witness for C2: accumulation on a sub-threshold sample and reset on
a sample exactly at the threshold. -/
theorem silence_accumulator_update_witness :
    (monitorAudioLevel defaultConfig (1/200) (some unmutedButton) 100000
        initialState).1.silenceDuration = initialState.silenceDuration + 1/10 ∧
    (monitorAudioLevel defaultConfig (1/100) (some unmutedButton) 100000
        initialState).1.silenceDuration = 0 ∧
    0 ≤ (monitorAudioLevel defaultConfig (1/100) (some unmutedButton) 100000
        initialState).1.silenceDuration :=
  ⟨(silence_accumulator_update defaultConfig (1/200) (some unmutedButton)
      100000 initialState (by norm_num [initialState])).1
      (by norm_num [defaultConfig]),
   (silence_accumulator_update defaultConfig (1/100) (some unmutedButton)
      100000 initialState (by norm_num [initialState])).2.1
      (by norm_num [defaultConfig]),
   (silence_accumulator_update defaultConfig (1/100) (some unmutedButton)
      100000 initialState (by norm_num [initialState])).2.2⟩

/-- C3: on any tick whose sample is at or above the threshold and whose
reconciled believed state is muted, exactly one unmute action is
dispatched (the tick emits at most one action), with no cooldown or
other condition attached. -/
theorem speech_unmute_unconditional (cfg : Config) (sample : ℚ)
    (button : Option ButtonInfo) (now : ℚ) (st : MonitorState)
    (hs : cfg.volumeThreshold ≤ sample)
    (hm : (checkMuteState button now st).isMuted = true) :
    (monitorAudioLevel cfg sample button now st).2 = some MuteAction.unmute := by
  rw [monitorAudioLevel_unmute_iff]
  exact ⟨hs, hm⟩

/-- Witness for C3 at a tick that is inside the cooldown window
(`now = lastUnmuteTime`), showing the unmute is not suppressed. -/
theorem speech_unmute_unconditional_witness :
    (monitorAudioLevel defaultConfig 1 (some mutedButton) 0 stMuted).2 =
      some MuteAction.unmute :=
  speech_unmute_unconditional defaultConfig 1 (some mutedButton) 0 stMuted
    (by norm_num [defaultConfig])
    (by rw [checkMuteState_isMuted]; decide)

/-- C4: strictly inside the cooldown window that began at the recorded
unmute time no automatic mute is dispatched; the silence timer still
accumulates during the suppression; and once the tick time is at or
past the cooldown the mute is dispatched again without a new speech
event. -/
theorem cooldown_suppresses_and_resumes (cfg : Config) (sample : ℚ)
    (button : Option ButtonInfo) (now tman : ℚ) (st : MonitorState)
    (hanchor : (checkMuteState button now st).lastUnmuteTime = tman) :
    ((now - tman) / 1000 < cfg.unmuteCooldown →
      (monitorAudioLevel cfg sample button now st).2 ≠ some MuteAction.mute) ∧
    (sample < cfg.volumeThreshold →
      (monitorAudioLevel cfg sample button now st).1.silenceDuration =
        st.silenceDuration + 1/10) ∧
    (cfg.unmuteCooldown ≤ (now - tman) / 1000 →
      sample < cfg.volumeThreshold →
      cfg.maxSilenceDuration ≤ st.silenceDuration + 1/10 →
      (checkMuteState button now st).isMuted = false →
      (monitorAudioLevel cfg sample button now st).2 = some MuteAction.mute) := by
  refine ⟨?_, ?_, ?_⟩
  · intro hcool hmute
    rw [monitorAudioLevel_mute_iff, hanchor] at hmute
    exact absurd hmute.2.2.2 (not_le.mpr hcool)
  · intro hs
    rw [monitorAudioLevel_silenceDuration]
    simp [hs]
  · intro hcool hs hdur hm
    rw [monitorAudioLevel_mute_iff, checkMuteState_silenceDuration, hanchor]
    exact ⟨hs, hdur, hm, hcool⟩

/-- Witness for C4: with the last unmute stamped at `100000` ms, a tick
at `100500` ms (0.5 s later) dispatches no mute yet accumulates
silence, and a tick at `103000` ms (3 s later) dispatches the mute. -/
theorem cooldown_suppresses_and_resumes_witness :
    (monitorAudioLevel defaultConfig (1/200) none 100500 stRecentUnmute).2 ≠
      some MuteAction.mute ∧
    (monitorAudioLevel defaultConfig (1/200) none 100500
        stRecentUnmute).1.silenceDuration =
      stRecentUnmute.silenceDuration + 1/10 ∧
    (monitorAudioLevel defaultConfig (1/200) none 103000 stRecentUnmute).2 =
      some MuteAction.mute :=
  ⟨(cooldown_suppresses_and_resumes defaultConfig (1/200) none 100500 100000
      stRecentUnmute rfl).1 (by norm_num [defaultConfig]),
   (cooldown_suppresses_and_resumes defaultConfig (1/200) none 100500 100000
      stRecentUnmute rfl).2.1 (by norm_num [defaultConfig]),
   (cooldown_suppresses_and_resumes defaultConfig (1/200) none 103000 100000
      stRecentUnmute rfl).2.2 (by norm_num [defaultConfig])
      (by norm_num [defaultConfig])
      (by norm_num [defaultConfig, stRecentUnmute])
      rfl⟩

/-- C5: when the observed state is unmuted while the believed state is
muted (a flip this system did not itself dispatch this tick, since
reconciliation runs before any dispatch), reconciliation stamps
`lastUnmuteTime` with the current time and ends with the believed state
equal to the observed state. -/
theorem manual_unmute_reconciliation (b : ButtonInfo) (now : ℚ)
    (st : MonitorState) (hobs : isButtonMuted b = false)
    (hbel : st.isMuted = true) :
    (checkMuteState (some b) now st).lastUnmuteTime = now ∧
    (checkMuteState (some b) now st).isMuted = false := by
  simp only [checkMuteState, hobs, hbel]
  cases h : st.lastMuteState <;> simp [h]

/-- Witness for C5: a muted state observes an unmuted button at
`5000` ms. -/
theorem manual_unmute_reconciliation_witness :
    (checkMuteState (some unmutedButton) 5000 stMuted).lastUnmuteTime = 5000 ∧
    (checkMuteState (some unmutedButton) 5000 stMuted).isMuted = false :=
  manual_unmute_reconciliation unmutedButton 5000 stMuted (by decide) rfl

lemma isButtonMuted_unmutedButton : isButtonMuted unmutedButton = false := by
  decide

lemma isButtonMuted_mutedButton : isButtonMuted mutedButton = true := by
  decide

set_option maxRecDepth 4000 in
/-- C6: end-to-end scenario A at the default configuration
(threshold `0.01`, duration `3` s, tick `0.1` s, cooldown `2` s):
30 consecutive sub-threshold samples from a fresh unmuted state with no
cooldown active yield no dispatch on the first 29 ticks and exactly one
mute, on the 30th tick. -/
theorem scenarioA_exactly_one_mute :
    (runTicks defaultConfig initialState scenarioAInputs).2 =
      List.replicate 29 none ++ [some MuteAction.mute] := by
  norm_num [scenarioAInputs, constInputs, runTicks, monitorAudioLevel,
    checkMuteState, isButtonMuted_unmutedButton, autoMute, autoUnmute,
    defaultConfig, initialState, List.replicate]

/-- C7: dispatching mute when the control is already muted per the
currently observed ground truth (the reconciled belief equals the
observation, and the dispatch guard tests it) performs no action and
changes no state; symmetrically for unmute when already unmuted. -/
theorem dispatch_idempotent_per_ground_truth (b : ButtonInfo) (now : ℚ)
    (st : MonitorState) :
    (isButtonMuted b = true →
      autoMute (checkMuteState (some b) now st) =
        (checkMuteState (some b) now st, none)) ∧
    (isButtonMuted b = false →
      autoUnmute now (checkMuteState (some b) now st) =
        (checkMuteState (some b) now st, none)) := by
  constructor
  · intro h
    simp [autoMute, checkMuteState_isMuted, h]
  · intro h
    simp [autoUnmute, checkMuteState_isMuted, h]

/-- Witness for C7 on buttons whose `data-is-muted` attribute reports
muted and unmuted respectively. -/
theorem dispatch_idempotent_per_ground_truth_witness :
    autoMute (checkMuteState (some mutedButton) 0 stMuted) =
      (checkMuteState (some mutedButton) 0 stMuted, none) ∧
    autoUnmute 0 (checkMuteState (some unmutedButton) 0 initialState) =
      (checkMuteState (some unmutedButton) 0 initialState, none) :=
  ⟨(dispatch_idempotent_per_ground_truth mutedButton 0 stMuted).1 (by decide),
   (dispatch_idempotent_per_ground_truth unmutedButton 0 initialState).2
     (by decide)⟩

/-- C8: the mute-state reader uses the `data-is-muted` attribute when
present (regardless of the label); when the attribute is absent and no
label pattern and no class probe matches, it returns not-muted — the
default and error paths never report muted. -/
theorem isButtonMuted_probing (b : ButtonInfo) :
    (∀ v, b.dataIsMuted = some v → isButtonMuted b = (v == "true")) ∧
    (b.dataIsMuted = none →
      (∀ pat ∈ labelPatterns, jsIncludes b.ariaLabel pat = false) →
      (∀ cls ∈ b.classList,
        (jsIncludes cls "muted" || jsIncludes cls "mute") = false) →
      isButtonMuted b = false) := by
  constructor
  · intro v hv
    simp [isButtonMuted, hv]
  · intro hnone hlabel hcls
    have h1 := hlabel "マイクをオフ" (by simp [labelPatterns])
    have h2 := hlabel "Mic off" (by simp [labelPatterns])
    have h3 := hlabel "マイクをオン" (by simp [labelPatterns])
    have h4 := hlabel "Mic on" (by simp [labelPatterns])
    have h5 := hlabel "ミュート" (by simp [labelPatterns])
    have h6 := hlabel "Mute" (by simp [labelPatterns])
    have h7 := hlabel "ミュート解除" (by simp [labelPatterns])
    have h8 := hlabel "Unmute" (by simp [labelPatterns])
    have hany : b.classList.any
        (fun cls => jsIncludes cls "muted" || jsIncludes cls "mute") = false := by
      rw [List.any_eq_false]
      intro cls hmem
      simp [hcls cls hmem]
    simp [isButtonMuted, hnone, h1, h2, h3, h4, h5, h6, h7, h8, hany]

/-- A button carrying the explicit attribute and a mute-like label:
the attribute decides. -/
def attrButton : ButtonInfo :=
  { dataIsMuted := some "true", ariaLabel := "Mute", classList := [] }

/-- A button with no attribute and no matching label or class. -/
def plainButton : ButtonInfo :=
  { dataIsMuted := none, ariaLabel := "camera", classList := ["btn"] }

/-- Witness for C8: the attribute decides on `attrButton`; every probe
failing on `plainButton` yields not-muted. -/
theorem isButtonMuted_probing_witness :
    isButtonMuted attrButton = ("true" == "true") ∧
    isButtonMuted plainButton = false :=
  ⟨(isButtonMuted_probing attrButton).1 "true" rfl,
   (isButtonMuted_probing plainButton).2 rfl (by decide) (by decide)⟩

/-- C9 as stated is false: with the mute button not found, the
decision is not skipped.  At 2.9 s of accumulated silence, believed
unmuted and outside any cooldown, a silent tick with the button absent
still dispatches an automatic mute (the keyboard shortcut needs no
button) and flips the believed mute state. -/
theorem controlNotFound_claim_false :
    (monitorAudioLevel defaultConfig 0 none 100000 stSilent29).2 =
      some MuteAction.mute ∧
    (monitorAudioLevel defaultConfig 0 none 100000 stSilent29).1.isMuted =
      true ∧
    stSilent29.isMuted = false := by
  norm_num [monitorAudioLevel, checkMuteState, autoMute, defaultConfig,
    stSilent29]

/-- C9 amended: when the control is not found, the reconciliation step
leaves the whole state unchanged, but the tick's decision still runs on
the believed state: a mute is dispatched exactly when the sample is
sub-threshold, the accumulated silence reaches the configured duration,
the believed state is unmuted, and the tick is outside the cooldown
window. -/
theorem controlNotFound_amended (cfg : Config) (sample now : ℚ)
    (st : MonitorState) :
    checkMuteState none now st = st ∧
    ((monitorAudioLevel cfg sample none now st).2 = some MuteAction.mute ↔
      (sample < cfg.volumeThreshold ∧
       cfg.maxSilenceDuration ≤ st.silenceDuration + 1/10 ∧
       st.isMuted = false ∧
       cfg.unmuteCooldown ≤ (now - st.lastUnmuteTime) / 1000)) := by
  refine ⟨rfl, ?_⟩
  rw [monitorAudioLevel_mute_iff]
  exact Iff.rfl

/-- A believed-muted state with 2.9 s of accumulated silence. -/
def stMutedSilent29 : MonitorState :=
  { silenceDuration := 29/10, isMuted := true, originalMuteState := false,
    lastUnmuteTime := 0, lastMuteState := true }

/-- C10: an automatic unmute stamps `lastUnmuteTime` with its dispatch
time and emits the unmute action, and any tick strictly within
`cooldownSeconds` of that dispatch (whatever it observes) dispatches no
automatic mute — the cooldown window also opens after automatic
unmutes. -/
theorem autoUnmute_opens_cooldown (cfg : Config) (sample : ℚ)
    (button : Option ButtonInfo) (t now : ℚ) (st : MonitorState)
    (hm : st.isMuted = true) (hts : t ≤ now)
    (hwin : (now - t) / 1000 < cfg.unmuteCooldown) :
    (autoUnmute t st).1.lastUnmuteTime = t ∧
    (autoUnmute t st).2 = some MuteAction.unmute ∧
    (monitorAudioLevel cfg sample button now (autoUnmute t st).1).2 ≠
      some MuteAction.mute := by
  have hfst : (autoUnmute t st).1 =
      { st with isMuted := false, lastUnmuteTime := t } := by
    simp [autoUnmute, hm]
  have hsnd : (autoUnmute t st).2 = some MuteAction.unmute := by
    simp [autoUnmute, hm]
  refine ⟨by rw [hfst], hsnd, ?_⟩
  intro hmute
  rw [monitorAudioLevel_mute_iff] at hmute
  have hge : t ≤
      (checkMuteState button now (autoUnmute t st).1).lastUnmuteTime := by
    have h2 := checkMuteState_lastUnmuteTime_ge button now (autoUnmute t st).1
      (by rw [hfst]; exact hts)
    calc t = (autoUnmute t st).1.lastUnmuteTime := by rw [hfst]
    _ ≤ _ := h2
  have h3 := hmute.2.2.2
  linarith

/-- Witness for C10: an automatic unmute at `100000` ms followed by a
silent tick half a second later with 3 s of accumulated silence —
suppressed by the freshly opened cooldown. -/
theorem autoUnmute_opens_cooldown_witness :
    (autoUnmute 100000 stMutedSilent29).1.lastUnmuteTime = 100000 ∧
    (autoUnmute 100000 stMutedSilent29).2 = some MuteAction.unmute ∧
    (monitorAudioLevel defaultConfig (1/200) none 100500
        (autoUnmute 100000 stMutedSilent29).1).2 ≠ some MuteAction.mute :=
  autoUnmute_opens_cooldown defaultConfig (1/200) none 100000 100500
    stMutedSilent29 rfl (by norm_num) (by norm_num [defaultConfig])
